import Mathlib

set_option maxRecDepth 200000

/-!
Verification development for the `process-gpt-agent-utils` repository.

The Python sources under `processgpt_agent_utils/tools/` are shallowly
embedded below:

* `human_query_tool.py` — `HumanQueryTool._make_signature`, `_run`,
  `_wait_for_response`
* `safe_tool_loader.py` — `SafeToolLoader._build_server_parameters`,
  `create_tools_from_names` and the local-tool loaders
* `knowledge_manager.py` — `Mem0Tool._run`'s relevance filter and
  `MementoTool.__init__`

External collaborators (the database client, the mem0 backend, MCP server
adapters, A2A endpoints) are modelled as explicit inputs: fetch results,
poll-outcome streams, and name-producing functions. Machine-level details
(SHA-256, UTF-8, JSON text) are implemented concretely over `Nat`,
`String` and lists so every definition is executable.
-/

/-! ### JSON values and Python `json.dumps`

`data` columns of event rows and the ask payload are JSON. Only the
shapes the tools actually touch are needed: null, booleans, integers,
strings and arrays. Objects are represented where they occur as
association lists `List (String × Json)` (Python dicts preserve
insertion order and have unique keys). -/

inductive Json where
  | null
  | bool (b : Bool)
  | num (n : Int)
  | str (s : String)
  | arr (elems : List Json)

/-- Hex digit characters, lower case, as produced by Python. -/
def hexDigitChar (n : Nat) : Char :=
  if n < 10 then Char.ofNat (48 + n) else Char.ofNat (87 + n)

/-- Four-digit lower-case hex, used for `\uXXXX` escapes of control
characters in JSON strings. -/
def hex4 (n : Nat) : String :=
  String.mk [hexDigitChar (n / 4096 % 16), hexDigitChar (n / 256 % 16),
    hexDigitChar (n / 16 % 16), hexDigitChar (n % 16)]

/-- Escaping of one character inside a JSON string literal, following
`json.dumps(..., ensure_ascii=False)`: only the quote, the backslash and
control characters are escaped; everything else passes through. -/
def jsonEscapeChar (c : Char) : String :=
  if c = Char.ofNat 34 then "\\\""
  else if c = Char.ofNat 92 then "\\\\"
  else if c = Char.ofNat 10 then "\\n"
  else if c = Char.ofNat 13 then "\\r"
  else if c = Char.ofNat 9 then "\\t"
  else if c = Char.ofNat 8 then "\\b"
  else if c = Char.ofNat 12 then "\\f"
  else if c.toNat < 32 then "\\u" ++ hex4 c.toNat
  else String.singleton c

/-- JSON string literal with quotes, as `json.dumps` renders a `str`. -/
def jsonStrLit (s : String) : String :=
  "\"" ++ String.join (s.data.map jsonEscapeChar) ++ "\""

/-- Interleave a separator between rendered items. -/
def joinSep (sep : String) : List String → String
  | [] => ""
  | [x] => x
  | x :: rest => x ++ sep ++ joinSep sep rest

mutual

/-- Serialization of a JSON value with Python's default separators
(`", "` between items, `": "` after keys). -/
def serializeJson : Json → String
  | .null => "null"
  | .bool true => "true"
  | .bool false => "false"
  | .num n => toString n
  | .str s => jsonStrLit s
  | .arr elems => "[" ++ joinSep ", " (serializeJsonList elems) ++ "]"

/-- Serialization of each element of a JSON array. -/
def serializeJsonList : List Json → List String
  | [] => []
  | j :: rest => serializeJson j :: serializeJsonList rest

end

/-- `json.dumps` of a flat object in the given key order
(`ensure_ascii=False`, no `sort_keys`): used for `json.dumps(resp_data)`
and `json.dumps(data)` on response payloads. -/
def dumpsObj (kvs : List (String × Json)) : String :=
  "\x7b" ++
    joinSep ", " (kvs.map (fun kv => jsonStrLit kv.1 ++ ": " ++ serializeJson kv.2)) ++
  "\x7d"

/-- Lexicographic comparison of character sequences by code point: the
order Python uses to compare two `str` values. -/
def charListLe : List Char → List Char → Bool
  | [], _ => true
  | _ :: _, [] => false
  | c :: cs, d :: ds =>
    if c.toNat = d.toNat then charListLe cs ds
    else decide (c.toNat < d.toNat)

/-- Key order used by `json.dumps(..., sort_keys=True)`: ascending string
comparison on the keys (Python compares `str` code-point-wise). -/
def keyLe (a b : String × Json) : Prop := charListLe a.1.data b.1.data = true

instance : DecidableRel keyLe := fun a b =>
  inferInstanceAs (Decidable (charListLe a.1.data b.1.data = true))

/-- The key sort performed by `json.dumps(..., sort_keys=True)`. -/
def sortKeys (kvs : List (String × Json)) : List (String × Json) :=
  List.insertionSort keyLe kvs

/-- `json.dumps(payload, ensure_ascii=False, sort_keys=True)` on a flat
object. -/
def dumpsObjSorted (kvs : List (String × Json)) : String :=
  dumpsObj (sortKeys kvs)

/-! ### UTF-8 and SHA-256

`HumanQueryTool._make_signature` hashes the canonical JSON text with
`hashlib.sha256(raw.encode("utf-8")).hexdigest()`. Both steps are
implemented concretely: bytes are `Nat` values below 256 and all 32-bit
arithmetic is `Nat` arithmetic reduced modulo `2 ^ 32`. -/

/-- UTF-8 encoding of one scalar value. -/
def utf8Char (c : Char) : List Nat :=
  let n := c.toNat
  if n < 128 then [n]
  else if n < 2048 then
    [192 + n / 64, 128 + n % 64]
  else if n < 65536 then
    [224 + n / 4096, 128 + n / 64 % 64, 128 + n % 64]
  else
    [240 + n / 262144, 128 + n / 4096 % 64, 128 + n / 64 % 64, 128 + n % 64]

/-- UTF-8 bytes of a string (`raw.encode("utf-8")`). -/
def utf8Bytes (s : String) : List Nat :=
  (s.data.map utf8Char).flatten

/-- Truncation to a 32-bit word. -/
def m32 (n : Nat) : Nat := n % 4294967296

/-- 32-bit right rotation. -/
def rotr32 (k x : Nat) : Nat := m32 ((x >>> k) ||| (x <<< (32 - k)))

/-- SHA-256 round constants. -/
def shaK : List Nat :=
  [1116352408, 1899447441, 3049323471, 3921009573, 961987163, 1508970993,
   2453635748, 2870763221, 3624381080, 310598401, 607225278, 1426881987,
   1925078388, 2162078206, 2614888103, 3248222580, 3835390401, 4022224774,
   264347078, 604807628, 770255983, 1249150122, 1555081692, 1996064986,
   2554220882, 2821834349, 2952996808, 3210313671, 3336571891, 3584528711,
   113926993, 338241895, 666307205, 773529912, 1294757372, 1396182291,
   1695183700, 1986661051, 2177026350, 2456956037, 2730485921, 2820302411,
   3259730800, 3345764771, 3516065817, 3600352804, 4094571909, 275423344,
   430227734, 506948616, 659060556, 883997877, 958139571, 1322822218,
   1537002063, 1747873779, 1955562222, 2024104815, 2227730452, 2361852424,
   2428436474, 2756734187, 3204031479, 3329325298]

/-- SHA-256 initial hash state `(a, b, c, d, e, f, g, h)`. -/
structure Sha256State where
  a : Nat
  b : Nat
  c : Nat
  d : Nat
  e : Nat
  f : Nat
  g : Nat
  h : Nat

def shaInit : Sha256State :=
  ⟨1779033703, 3144134277, 1013904242, 2773480762,
   1359893119, 2600822924, 528734635, 1541459225⟩

/-- Big-endian 8-byte rendering of the bit length. -/
def be64 (n : Nat) : List Nat :=
  [n >>> 56 % 256, n >>> 48 % 256, n >>> 40 % 256, n >>> 32 % 256,
   n >>> 24 % 256, n >>> 16 % 256, n >>> 8 % 256, n % 256]

/-- SHA-256 padding: a `0x80` byte, zeros to 56 mod 64, then the 64-bit
big-endian message bit length. -/
def shaPad (msg : List Nat) : List Nat :=
  let L := msg.length
  let zeros := (119 - L % 64) % 64
  msg ++ [128] ++ List.replicate zeros 0 ++ be64 (8 * L)

/-- Big-endian 32-bit words from bytes. -/
def bytesToWords : List Nat → List Nat
  | b0 :: b1 :: b2 :: b3 :: rest =>
    (b0 * 16777216 + b1 * 65536 + b2 * 256 + b3) :: bytesToWords rest
  | _ => []

def smallSigma0 (x : Nat) : Nat := rotr32 7 x ^^^ rotr32 18 x ^^^ (x >>> 3)

def smallSigma1 (x : Nat) : Nat := rotr32 17 x ^^^ rotr32 19 x ^^^ (x >>> 10)

/-- One extension step of the message schedule, appending word `w[n]`
computed from `w[n-16], w[n-15], w[n-7], w[n-2]`. -/
def extendStep (w : List Nat) : List Nat :=
  let n := w.length
  w ++ [m32 (w.getD (n - 16) 0 + smallSigma0 (w.getD (n - 15) 0) +
             w.getD (n - 7) 0 + smallSigma1 (w.getD (n - 2) 0))]

/-- The 64-word message schedule from the 16 block words. -/
def fullSchedule (w16 : List Nat) : List Nat :=
  (List.range 48).foldl (fun w _ => extendStep w) w16

/-- One SHA-256 compression round for round constant `k` and schedule
word `w`. -/
def shaRound (s : Sha256State) (kw : Nat × Nat) : Sha256State :=
  let bigS1 := rotr32 6 s.e ^^^ rotr32 11 s.e ^^^ rotr32 25 s.e
  let ch := (s.e &&& s.f) ^^^ ((s.e ^^^ 4294967295) &&& s.g)
  let temp1 := m32 (s.h + bigS1 + ch + kw.1 + kw.2)
  let bigS0 := rotr32 2 s.a ^^^ rotr32 13 s.a ^^^ rotr32 22 s.a
  let maj := (s.a &&& s.b) ^^^ (s.a &&& s.c) ^^^ (s.b &&& s.c)
  let temp2 := m32 (bigS0 + maj)
  ⟨m32 (temp1 + temp2), s.a, s.b, s.c, m32 (s.d + temp1), s.e, s.f, s.g⟩

/-- Process one 64-byte block. -/
def shaBlock (s : Sha256State) (block : List Nat) : Sha256State :=
  let w := fullSchedule (bytesToWords block)
  let r := (shaK.zip w).foldl shaRound s
  ⟨m32 (s.a + r.a), m32 (s.b + r.b), m32 (s.c + r.c), m32 (s.d + r.d),
   m32 (s.e + r.e), m32 (s.f + r.f), m32 (s.g + r.g), m32 (s.h + r.h)⟩

/-- Process `n` consecutive 64-byte blocks of `bytes`. -/
def shaBlocksGo : Nat → Sha256State → List Nat → Sha256State
  | 0, s, _ => s
  | n + 1, s, bytes => shaBlocksGo n (shaBlock s (bytes.take 64)) (bytes.drop 64)

/-- Split the padded message (whose length is a multiple of 64) into
64-byte blocks and fold the compression function over them. -/
def shaBlocks (s : Sha256State) (bytes : List Nat) : Sha256State :=
  shaBlocksGo (bytes.length / 64) s bytes

/-- Two lower-case hex characters of one byte. -/
def byteHex (b : Nat) : String :=
  String.mk [hexDigitChar (b / 16 % 16), hexDigitChar (b % 16)]

/-- Big-endian hex of one 32-bit word. -/
def wordHex (w : Nat) : String :=
  byteHex (w >>> 24 % 256) ++ byteHex (w >>> 16 % 256) ++
  byteHex (w >>> 8 % 256) ++ byteHex (w % 256)

/-- `hashlib.sha256(bytes).hexdigest()`. -/
def sha256hex (bytes : List Nat) : String :=
  let s := shaBlocks shaInit (shaPad bytes)
  wordHex s.a ++ wordHex s.b ++ wordHex s.c ++ wordHex s.d ++
  wordHex s.e ++ wordHex s.f ++ wordHex s.g ++ wordHex s.h

/-! ### `HumanQueryTool._make_signature` (human_query_tool.py:103-113) -/

/-- The payload dict of `_make_signature`, in the insertion order the
source writes it: role, text, type, options. -/
def sigPayload (role text ty : String) (options : List String) : List (String × Json) :=
  [("role", Json.str role), ("text", Json.str text), ("type", Json.str ty),
   ("options", Json.arr (options.map Json.str))]

/-- `HumanQueryTool._make_signature`: the payload is rendered with
`json.dumps(..., ensure_ascii=False, sort_keys=True)`, UTF-8 encoded and
hashed with SHA-256. -/
def make_signature (role text ty : String) (options : List String) : String :=
  sha256hex (utf8Bytes (dumpsObjSorted (sigPayload role text ty options)))

/-- The signature `_run` computes at human_query_tool.py:124-125: the
`options` argument is normalized with `options or []` first (`None` and
the empty list both become `[]`). -/
def runSignature (role text ty : String) (options : Option (List String)) : String :=
  make_signature role text ty (options.getD [])

/-- The whitespace characters `str.strip()` removes (those occurring in
the ASCII range used by tool names and id lists). -/
def pyIsSpace (c : Char) : Bool :=
  c.toNat = 32 ∨ c.toNat = 9 ∨ c.toNat = 10 ∨ c.toNat = 13 ∨ c.toNat = 11 ∨ c.toNat = 12

/-- Python `str.strip()`. -/
def pyStrip (s : String) : String :=
  String.mk (((s.data.dropWhile pyIsSpace).reverse.dropWhile pyIsSpace).reverse)

/-- Python `str.lower()` on one character. Tool names, transports and
the `a2a:` marker are ASCII, where lowering adds 32 to `A`-`Z`. -/
def pyLowerChar (c : Char) : Char :=
  if 65 ≤ c.toNat ∧ c.toNat ≤ 90 then Char.ofNat (c.toNat + 32) else c

/-- Python `str.lower()`. -/
def pyLower (s : String) : String := String.mk (s.data.map pyLowerChar)

/-- Python `str.startswith(pre)`. -/
def pyStartsWith (s pre : String) : Bool := pre.data.isPrefixOf s.data

/-! ### Event rows and `HumanQueryTool._run` (human_query_tool.py:116-216)

`fetch_events_by_todo_id` returns the stored event rows for the task in
insertion order. A row carries the fields `_run` reads: `event_type`,
`job_id` and `data`. `data` is `Option`al because the code defends with
`event.get("data") or {}`. -/

structure Event where
  event_type : String
  job_id : Option String
  data : Option (List (String × Json))

/-- `event.get("data") or {}`. -/
def eventData (e : Event) : List (String × Json) := e.data.getD []

/-- One step of the newest-first scans of `_run`: return the first
`some` value `f` produces on the list. Both loops in `_run` walk
`reversed(existing_events)` and act on the first event that passes their
filters, which is exactly this shape. -/
def firstSome (f : Event → Option α) : List Event → Option α
  | [] => none
  | e :: rest =>
    match f e with
    | some x => some x
    | none => firstSome f rest

/-- The outer scan body (human_query_tool.py:136-143): skip events that
are not `human_asked`, whose stored `data.signature` is not (string-)
equal to the current signature, or whose `job_id` is falsy (`None` or
`""` — `if not prev_job_id: continue`); otherwise produce the previous
job id. -/
def askJobMatch (signature : String) (e : Event) : Option String :=
  if e.event_type = "human_asked" then
    match (eventData e).lookup "signature" with
    | some (Json.str s) =>
      if s = signature then
        match e.job_id with
        | some j => if j = "" then none else some j
        | none => none
      else none
    | _ => none
  else none

/-- The inner scan body (human_query_tool.py:146-150): skip events that
are not `human_response` or whose `job_id` differs from the previous job
id; the first match supplies its `data` (`resp.get("data") or {}`). -/
def respDataFor (job : String) (e : Event) : Option (List (String × Json)) :=
  if e.event_type = "human_response" ∧ e.job_id = some job then some (eventData e)
  else none

/-- The constructor state of `HumanQueryTool` (human_query_tool.py:84-99).
`proc_inst_id` and `task_id` are `str`-typed; `task_id` may still be
empty, which `if self._task_id:` treats as falsy. -/
structure ToolCfg where
  proc_inst_id : String
  task_id : String
  tenant_id : Option String
  agent_name : Option String
  user_ids_csv : Option String

/-- The arguments `_run` passes to `save_event_sync`
(human_query_tool.py:180-187) when it emits a new ask. -/
structure SavedEvent where
  job_id : String
  todo_id : String
  proc_inst_id : String
  crew_type : Option String
  data : List (String × Json)
  event_type : String

/-- What `_run` does after the dedup scan: either return a value without
polling, or poll a job id (the result of the call is then
`_wait_for_response job`). -/
inductive RunResult where
  | immediate (answer : String)
  | poll (job : String)

/-- The observable outcome of one `_run` call: the event appended via
`save_event_sync` (if any), whether `save_notification_sync` was called,
and the control-flow result. -/
structure RunOutcome where
  appended : Option SavedEvent
  notified : Bool
  result : RunResult

/-- `HumanQueryTool._run` (human_query_tool.py:116-216).

External effects are passed in explicitly: `crew_type` is the context
snapshot value, `fetched` is the outcome of `fetch_events_by_todo_id`
(`Except.error` models the swallowed fetch exception at lines 130-131),
and `uuid` is the fresh `uuid.uuid4()` string used only when a new job
is minted. The dedup scan (lines 133-164) cannot itself raise here, so
the surrounding `try` is inert; `save_event_sync` and
`save_notification_sync` are recorded in the outcome, and polling is
returned symbolically as `RunResult.poll`. -/
def HumanQueryTool_run (cfg : ToolCfg) (crew_type : Option String)
    (fetched : Except Unit (List Event)) (uuid : String)
    (role text ty : String) (options : Option (List String)) : RunOutcome :=
  let normalized_options := options.getD []
  let signature := make_signature role text ty normalized_options
  let existing_events :=
    if cfg.task_id ≠ "" then
      match fetched with
      | Except.ok evs => evs
      | Except.error _ => []
    else []
  match firstSome (askJobMatch signature) existing_events.reverse with
  | some prev_job_id =>
    match firstSome (respDataFor prev_job_id) existing_events.reverse with
    | some resp_data =>
      match resp_data.lookup "answer" with
      | some (Json.str answer) => ⟨none, false, RunResult.immediate answer⟩
      | _ => ⟨none, false, RunResult.immediate (dumpsObj resp_data)⟩
    | none => ⟨none, false, RunResult.poll prev_job_id⟩
  | none =>
    let payload : List (String × Json) :=
      [("role", Json.str role), ("text", Json.str text), ("type", Json.str ty),
       ("options", Json.arr (normalized_options.map Json.str)),
       ("signature", Json.str signature)]
    let job_id := "human_asked_" ++ uuid
    let notified :=
      match cfg.user_ids_csv with
      | some csv => pyStrip csv ≠ ""
      | none => false
    ⟨some ⟨job_id, cfg.task_id, cfg.proc_inst_id, crew_type, payload, "human_asked"⟩,
     notified, RunResult.poll job_id⟩

/-! ### `HumanQueryTool._wait_for_response` (human_query_tool.py:221-247)

Each loop iteration calls `fetch_human_response_sync`; its outcome is an
element of an outcome stream indexed by iteration number: the call can
raise (`err`), return `None` (`notFound`), or return an event whose
`data` field is carried by `found`. Time advances only through
`time.sleep(poll_interval_sec)`, so the `while time.time() < deadline`
loop runs `⌈timeout_sec / poll_interval_sec⌉` iterations; that count is
the fuel of the loop function. Raising `RuntimeError` is the
`Except.error` result. -/

inductive PollOutcome where
  | err
  | notFound
  | found (data : List (String × Json))

inductive PyErr where
  | nameError
  | runtimeError
  deriving DecidableEq

/-- The polling loop body: fuel is the number of remaining iterations,
`i` the current index into the outcome stream, `error_count` the number
of consecutive errors so far. Running out of fuel is the deadline path
returning the rejection sentinel (human_query_tool.py:246-247). -/
def waitFrom (outcomes : Nat → PollOutcome) : Nat → Nat → Nat → Except PyErr String
  | 0, _, _ => Except.ok "사용자 미응답 거절"
  | fuel + 1, i, error_count =>
    match outcomes i with
    | PollOutcome.found d =>
      match d.lookup "answer" with
      | some (Json.str answer) => Except.ok answer
      | _ => Except.ok (dumpsObj d)
    | PollOutcome.notFound => waitFrom outcomes fuel (i + 1) 0
    | PollOutcome.err =>
      if error_count + 1 ≥ 3 then Except.error PyErr.runtimeError
      else waitFrom outcomes fuel (i + 1) (error_count + 1)

/-- `HumanQueryTool._wait_for_response job_id timeout_sec poll_interval_sec`
with the job's lookup outcomes supplied as a stream. The deadline admits
`⌈timeout_sec / poll_interval_sec⌉` sleeps, 36 for the source defaults
(180, 5) and none at all for a deadline already past (`timeout_sec = 0`). -/
def wait_for_response (outcomes : Nat → PollOutcome)
    (timeout_sec poll_interval_sec : Nat) : Except PyErr String :=
  waitFrom outcomes ((timeout_sec + poll_interval_sec - 1) / poll_interval_sec) 0 0

/-! ### `SafeToolLoader._build_server_parameters` (safe_tool_loader.py:338-414)

A server descriptor from the `mcpServers` configuration. String-valued
fields are `Option`al (`dict.get` returns `None` when absent); Python
truthiness treats `None` and `""` alike, captured by `optTruthy`. `args`
and `headers` already hold their coerced string forms (the source only
applies `str(...)` to each element). -/

structure ServerCfg where
  transport : Option String
  typeField : Option String
  url : Option String
  command : Option String
  args : List String
  headers : List (String × String)

/-- Python truthiness of an optional string: `None` and `""` are falsy. -/
def optTruthy : Option String → Bool
  | none => false
  | some s => s ≠ ""

/-- The transport selection of `_build_server_parameters`
(safe_tool_loader.py:343-352): `transport` field, else `type` field,
else inference from the URL scheme, else the `"stdio"` default; the
final value is lower-cased (`str(transport_value or "stdio").lower()`). -/
def resolveTransport (cfg : ServerCfg) : String :=
  let tv := if optTruthy cfg.transport then cfg.transport else cfg.typeField
  let tv :=
    if optTruthy tv then tv
    else
      match cfg.url with
      | some u =>
        if u ≠ "" then
          if pyStartsWith u "ws://" ∨ pyStartsWith u "wss://" then some "websocket"
          else if pyStartsWith u "http://" ∨ pyStartsWith u "https://" then some "streamable-http"
          else tv
        else tv
      | none => tv
  pyLower (if optTruthy tv then tv.getD "" else "stdio")

/-- The four connection-parameter shapes `_build_server_parameters` can
return; the `transport` key of the returned dicts is the constructor. -/
inductive ServerParams where
  | stdio (command : String) (args : List String) (env : List (String × String)) (timeout : Int)
  | websocket (url : String) (headers : List (String × String)) (timeout : Int)
  | streamableHttp (url : String) (headers : List (String × String)) (timeout : Int)
  | sse (url : String) (headers : List (String × String)) (timeout : Int)
  deriving DecidableEq

/-- `SafeToolLoader._build_server_parameters` (safe_tool_loader.py:338-414).
`env_vars` and `timeout` are the caller-supplied arguments, `npx` the
result of `_find_npx_command()` (used only to replace an `"npx"`
command, `self._find_npx_command() or cmd`). Every failure path returns
`none`; the function is total, so it cannot raise. -/
def build_server_parameters (cfg : ServerCfg) (env_vars : List (String × String))
    (timeout : Int) (npx : String) : Option ServerParams :=
  let transport := resolveTransport cfg
  if transport = "" ∨ transport = "stdio" then
    match cfg.command with
    | none => none
    | some cmd =>
      if cmd = "" then none
      else
        let cmd := if cmd = "npx" then (if npx ≠ "" then npx else cmd) else cmd
        some (ServerParams.stdio cmd cfg.args env_vars timeout)
  else if transport = "websocket" then
    match cfg.url with
    | none => none
    | some u =>
      if u = "" then none else some (ServerParams.websocket u cfg.headers timeout)
  else if transport = "streamable-http" ∨ transport = "http" then
    match cfg.url with
    | none => none
    | some u =>
      if u = "" then none else some (ServerParams.streamableHttp u cfg.headers timeout)
  else if transport = "sse" then
    match cfg.url with
    | none => none
    | some u =>
      if u = "" then none else some (ServerParams.sse u cfg.headers timeout)
  else none

/-! ### `Mem0Tool._run`'s relevance filter (knowledge_manager.py:197-214)

One search hit from the vector-memory backend: a remembered text and an
optional relevance score. Scores are IEEE doubles in the source; the
filter only ever *compares* them (`sorted` by key and `>= 0.5`), and
float comparison agrees with comparison of the rationals the floats
denote, so scores are embedded as `ℚ`. A missing score is read as `0`
(`x.get("score", 0)`). -/

structure Hit where
  memory : String
  score : Option ℚ
  deriving DecidableEq

/-- `hit.get("score", 0)`. -/
def hitScore (h : Hit) : ℚ := h.score.getD 0

/-- Descending-score order: `sorted(hits, key=..., reverse=True)` places
`a` before `b` when `b`'s score is at most `a`'s. Python's sort is
stable, as is insertion sort. -/
def hitGe (a b : Hit) : Prop := hitScore b ≤ hitScore a

instance : DecidableRel hitGe := fun a b =>
  inferInstanceAs (Decidable (hitScore b ≤ hitScore a))

/-- The hit-selection logic of `Mem0Tool._run`
(knowledge_manager.py:201-207): sort by descending score, keep scores
`≥ 0.5`, but fall back to the top five of the sorted list when fewer
than five pass. -/
def mem0SelectHits (hits : List Hit) : List Hit :=
  let hits_sorted := List.insertionSort hitGe hits
  let filtered_hits := hits_sorted.filter (fun h => mkRat 1 2 ≤ hitScore h)
  if filtered_hits.length < 5 then hits_sorted.take 5 else filtered_hits

/-! ### `MementoTool.__init__` and the tool loaders
(knowledge_manager.py:258-262, safe_tool_loader.py:93-225)

`MementoTool.__init__` executes `self._proc_inst_id = proc_inst_id`.
`proc_inst_id` is not a parameter of `__init__` (the value arrives in
`**kwargs`) and not a local, so Python resolves it against the module's
global namespace and then builtins. -/

/-- The names bound at top level of `knowledge_manager.py` (its imports
and definitions, in source order). `proc_inst_id` is not among them. -/
def knowledge_manager_globals : List String :=
  ["annotations", "os", "logging", "zlib", "Optional", "List", "Type",
   "BaseModel", "Field", "PrivateAttr", "field_validator", "BaseTool",
   "load_dotenv", "Memory", "requests", "sql_text", "vecs", "logger",
   "DB_USER", "DB_PASSWORD", "DB_HOST", "DB_PORT", "DB_NAME",
   "CONNECTION_STRING", "_VECS_PATCHED", "_apply_vecs_drop_if_exists_patch",
   "KnowledgeQuerySchema", "Mem0Tool", "MementoQuerySchema", "MementoTool"]

/-- The private attributes `MementoTool.__init__` assigns. -/
structure MementoTool where
  tenant_id : String
  proc_inst_id : String

/-- `MementoTool.__init__` (knowledge_manager.py:258-262): after
`super().__init__(**kwargs)` and `self._tenant_id = tenant_id`, the body
reads the bare name `proc_inst_id`. It is bound neither in the module
globals nor in builtins, so the lookup raises `NameError`; the `ok`
branch is unreachable. -/
def MementoTool_init (tenant_id : String) : Except PyErr MementoTool :=
  if knowledge_manager_globals.contains "proc_inst_id" then
    Except.ok ⟨tenant_id, ""⟩
  else Except.error PyErr.nameError

/-- The constructor state of `SafeToolLoader` (safe_tool_loader.py:34-40);
all three are optional and checked for truthiness by the loaders. -/
structure LoaderCfg where
  tenant_id : Option String
  user_id : Option String
  agent_name : Option String

/-- `SafeToolLoader._load_mem0` (safe_tool_loader.py:161-172) at the level
of produced capability names: skip without a truthy `user_id`, else one
tool named `mem0`. `Mem0Tool.__init__` touching only external state, its
success is assumed. -/
def load_mem0 (cfg : LoaderCfg) : List String :=
  if optTruthy cfg.user_id then ["mem0"] else []

/-- `SafeToolLoader._load_memento` (safe_tool_loader.py:174-185): skip
without a truthy `tenant_id`; otherwise construct `MementoTool`, whose
failure is re-raised (`except ...: raise`). -/
def load_memento (cfg : LoaderCfg) : Except PyErr (List String) :=
  if optTruthy cfg.tenant_id then
    match MementoTool_init (cfg.tenant_id.getD "") with
    | Except.ok _ => Except.ok ["memento"]
    | Except.error e => Except.error e
  else Except.ok []

/-- `SafeToolLoader._load_human_asked` (safe_tool_loader.py:187-208):
requires truthy `tenant_id` and `agent_name`. -/
def load_human_asked (cfg : LoaderCfg) : List String :=
  if optTruthy cfg.tenant_id then
    if optTruthy cfg.agent_name then ["human_asked"] else []
  else []

/-- `SafeToolLoader._load_dmn_rule` (safe_tool_loader.py:210-225):
requires truthy `tenant_id` and `user_id`. -/
def load_dmn_rule (cfg : LoaderCfg) : List String :=
  if optTruthy cfg.tenant_id then
    if optTruthy cfg.user_id then ["dmn_rule"] else []
  else []

/-- `self.local_tools` (safe_tool_loader.py:39). -/
def local_tools : List String := ["mem0", "memento", "human_asked", "dmn_rule"]

/-- `name.split(":", 1)[1]`: the text after the first colon. -/
def afterColon (s : String) : String :=
  String.mk ((s.data.dropWhile (fun c => ¬ c = ':')).drop 1)

/-- The body of the per-name loop of `create_tools_from_names`
(safe_tool_loader.py:137-153): names already loaded as local tools and
`a2a:`-marked names are skipped, anything else is loaded as an MCP
server and its tools appended. -/
def mcpLoadStep (mcpTools : String → List String) (acc : List String) (n : String) :
    List String :=
  let key := pyLower (pyStrip n)
  if key ∈ local_tools then acc
  else if pyStartsWith key "a2a:" then acc
  else acc ++ mcpTools key

/-- `SafeToolLoader.create_tools_from_names` (safe_tool_loader.py:93-156)
at the level of produced capability names. The external loads are
supplied as functions: `a2aTools` for `_load_a2a_tools` (whose internal
failures are swallowed) and `mcpTools` for a successful
`_load_mcp_tool` per server key. The local loaders always run first and
in source order; an exception from `_load_memento` propagates out of the
whole call. Requested names already covered by `local_tools` or carrying
the `a2a:` marker are skipped by the per-name loop. -/
def create_tools_from_names (cfg : LoaderCfg) (tool_names : List String)
    (agent_type : Option String) (a2aTools : List String → List String)
    (mcpTools : String → List String) : Except PyErr (List String) :=
  match load_memento cfg with
  | Except.error e => Except.error e
  | Except.ok memento_tools =>
    let base := load_mem0 cfg ++ memento_tools ++ load_human_asked cfg ++ load_dmn_rule cfg
    let a2a :=
      if pyLower (agent_type.getD "") = "a2a" then
        let cands := (tool_names.filter (fun n => pyStartsWith (pyLower n) "a2a:")).map
          (fun n => pyStrip (afterColon n))
        if cands.isEmpty then [] else a2aTools cands
      else []
    let mcp := tool_names.foldl (mcpLoadStep mcpTools) []
    Except.ok (base ++ a2a ++ mcp)

/-! ## Helper lemmas -/

theorem charListLe_total : ∀ xs ys, charListLe xs ys = true ∨ charListLe ys xs = true
  | [], _ => Or.inl rfl
  | _ :: _, [] => Or.inr rfl
  | c :: cs, d :: ds => by
    by_cases h : c.toNat = d.toNat
    · simpa [charListLe, h] using charListLe_total cs ds
    · simp only [charListLe, if_neg h, if_neg (Ne.symm h), decide_eq_true_eq]
      omega

theorem charListLe_trans : ∀ xs ys zs, charListLe xs ys = true →
    charListLe ys zs = true → charListLe xs zs = true
  | [], _, _, _, _ => rfl
  | _ :: _, [], _, h, _ => by simp [charListLe] at h
  | _ :: _, _ :: _, [], _, h => by simp [charListLe] at h
  | c :: cs, d :: ds, e :: es, h1, h2 => by
    simp only [charListLe] at h1 h2 ⊢
    by_cases hcd : c.toNat = d.toNat
    · by_cases hde : d.toNat = e.toNat
      · rw [if_pos hcd] at h1
        rw [if_pos hde] at h2
        rw [if_pos (hcd.trans hde)]
        exact charListLe_trans cs ds es h1 h2
      · rw [if_neg hde, decide_eq_true_eq] at h2
        have hce : ¬ c.toNat = e.toNat := by omega
        rw [if_neg hce, decide_eq_true_eq]
        omega
    · rw [if_neg hcd, decide_eq_true_eq] at h1
      by_cases hde : d.toNat = e.toNat
      · have hce : ¬ c.toNat = e.toNat := by omega
        rw [if_neg hce, decide_eq_true_eq]
        omega
      · rw [if_neg hde, decide_eq_true_eq] at h2
        have hce : ¬ c.toNat = e.toNat := by omega
        rw [if_neg hce, decide_eq_true_eq]
        omega

theorem charListLe_antisymm : ∀ xs ys, charListLe xs ys = true →
    charListLe ys xs = true → xs = ys
  | [], [] => by intro _ _; rfl
  | [], _ :: _ => by intro _ h; simp [charListLe] at h
  | _ :: _, [] => by intro h _; simp [charListLe] at h
  | c :: cs, d :: ds => by
    intro h1 h2
    by_cases h : c.toNat = d.toNat
    · have hc : c = d := by
        have := congrArg Char.ofNat h
        rwa [Char.ofNat_toNat, Char.ofNat_toNat] at this
      simp only [charListLe, if_pos h, if_pos (Eq.symm h)] at h1 h2
      rw [hc, charListLe_antisymm cs ds h1 h2]
    · simp only [charListLe, if_neg h, if_neg (Ne.symm h), decide_eq_true_eq] at h1 h2
      omega

theorem firstSome_append_none {α : Type} (f : Event → Option α) (pre l : List Event)
    (h : ∀ e ∈ pre, f e = none) : firstSome f (pre ++ l) = firstSome f l := by
  induction pre with
  | nil => rfl
  | cons e rest ih =>
    have he : f e = none := h e (List.mem_cons_self e rest)
    simp only [List.cons_append, firstSome, he]
    exact ih (fun x hx => h x (List.mem_cons_of_mem e hx))

theorem firstSome_cons_some {α : Type} (f : Event → Option α) (e : Event) (l : List Event)
    {x : α} (h : f e = some x) : firstSome f (e :: l) = some x := by
  simp only [firstSome, h]

theorem firstSome_eq_none {α : Type} (f : Event → Option α) (l : List Event)
    (h : ∀ e ∈ l, f e = none) : firstSome f l = none := by
  induction l with
  | nil => rfl
  | cons e rest ih =>
    have he : f e = none := h e (List.mem_cons_self e rest)
    simp only [firstSome, he]
    exact ih (fun x hx => h x (List.mem_cons_of_mem e hx))

theorem sortKeys_sorted (l : List (String × Json)) : List.Sorted keyLe (sortKeys l) := by
  haveI : IsTotal (String × Json) keyLe := ⟨fun a b => charListLe_total a.1.data b.1.data⟩
  haveI : IsTrans (String × Json) keyLe := ⟨fun _ _ _ h h2 => charListLe_trans _ _ _ h h2⟩
  exact List.sorted_insertionSort keyLe l

/-- `sorted()` is a function of the multiset of entries when the keys are
distinct: assembling the payload in any order yields the same sorted
key-value sequence. -/
theorem sortKeys_eq_of_perm (l₁ l₂ : List (String × Json))
    (hp : l₁.Perm l₂) (hnd : (l₁.map Prod.fst).Nodup) :
    sortKeys l₁ = sortKeys l₂ := by
  have hperm : (sortKeys l₁).Perm (sortKeys l₂) :=
    (List.perm_insertionSort keyLe l₁).trans (hp.trans (List.perm_insertionSort keyLe l₂).symm)
  have hnd₁ : ((sortKeys l₁).map Prod.fst).Nodup :=
    (((List.perm_insertionSort keyLe l₁).map Prod.fst).nodup_iff).mpr hnd
  have hnd₂ : ((sortKeys l₂).map Prod.fst).Nodup :=
    ((hperm.map Prod.fst).nodup_iff).mp hnd₁
  have hpw₁ : List.Pairwise (fun a b : String × Json => ¬ a.1 = b.1) (sortKeys l₁) :=
    (List.pairwise_map).mp hnd₁
  have hpw₂ : List.Pairwise (fun a b : String × Json => ¬ a.1 = b.1) (sortKeys l₂) :=
    (List.pairwise_map).mp hnd₂
  haveI : IsAntisymm (String × Json) (fun a b => keyLe a b ∧ ¬ a.1 = b.1) := by
    constructor
    rintro a b ⟨h1, hne⟩ ⟨h2, _⟩
    have hd : a.1.data = b.1.data := charListLe_antisymm _ _ h1 h2
    have : a.1 = b.1 := by
      cases ha : a.1
      cases hb : b.1
      simp only [ha, hb] at hd
      rw [hd]
    exact absurd this hne
  exact List.eq_of_perm_of_sorted (r := fun a b => keyLe a b ∧ ¬ a.1 = b.1) hperm
    ((sortKeys_sorted l₁).and hpw₁) ((sortKeys_sorted l₂).and hpw₂)

/-- The safety invariant of the polling loop: when the stream never
shows three consecutive errors, the loop never reaches the
`RuntimeError` branch. `error_count` counts the errors immediately
before index `i`. -/
theorem waitFrom_ne_error_aux (outcomes : Nat → PollOutcome)
    (H : ∀ j, ¬ (outcomes j = PollOutcome.err ∧ outcomes (j + 1) = PollOutcome.err ∧
      outcomes (j + 2) = PollOutcome.err)) :
    ∀ fuel i ec, ec ≤ 2 →
      (1 ≤ ec → 1 ≤ i ∧ outcomes (i - 1) = PollOutcome.err) →
      (ec = 2 → 2 ≤ i ∧ outcomes (i - 2) = PollOutcome.err) →
      ∀ e, waitFrom outcomes fuel i ec ≠ Except.error e := by
  intro fuel
  induction fuel with
  | zero =>
    intro i ec _ _ _ e h
    simp [waitFrom] at h
  | succ n ih =>
    intro i ec hec h1 h2 e
    simp only [waitFrom]
    cases ho : outcomes i with
    | found d =>
      cases hd : List.lookup "answer" d with
      | none => simp [hd]
      | some v => cases v <;> simp [hd]
    | notFound =>
      exact ih (i + 1) 0 (by omega) (by omega) (by omega) e
    | err =>
      by_cases h3 : ec + 1 ≥ 3
      · exfalso
        have hec2 : ec = 2 := by omega
        obtain ⟨hi2, hm2⟩ := h2 hec2
        obtain ⟨hi1, hm1⟩ := h1 (by omega)
        refine H (i - 2) ⟨hm2, ?_, ?_⟩
        · rw [show i - 2 + 1 = i - 1 by omega]
          exact hm1
        · rw [show i - 2 + 2 = i by omega]
          exact ho
      · rw [if_neg h3]
        refine ih (i + 1) (ec + 1) (by omega) (fun _ => ⟨by omega, by simpa using ho⟩)
          (fun hc => ⟨by omega, ?_⟩) e
        have hec1 : ec = 1 := by omega
        obtain ⟨hi1, hm1⟩ := h1 (by omega)
        rw [show i + 1 - 2 = i - 1 by omega]
        exact hm1

/-- The timeout invariant of the polling loop: when no lookup ever finds
a response and the stream never shows three consecutive errors, the loop
runs out of fuel and returns the rejection sentinel. -/
theorem waitFrom_sentinel_aux (outcomes : Nat → PollOutcome)
    (H : ∀ j, ¬ (outcomes j = PollOutcome.err ∧ outcomes (j + 1) = PollOutcome.err ∧
      outcomes (j + 2) = PollOutcome.err))
    (Hnf : ∀ i, outcomes i = PollOutcome.notFound ∨ outcomes i = PollOutcome.err) :
    ∀ fuel i ec, ec ≤ 2 →
      (1 ≤ ec → 1 ≤ i ∧ outcomes (i - 1) = PollOutcome.err) →
      (ec = 2 → 2 ≤ i ∧ outcomes (i - 2) = PollOutcome.err) →
      waitFrom outcomes fuel i ec = Except.ok "사용자 미응답 거절" := by
  intro fuel
  induction fuel with
  | zero =>
    intro i ec _ _ _
    rfl
  | succ n ih =>
    intro i ec hec h1 h2
    simp only [waitFrom]
    cases ho : outcomes i with
    | found d =>
      exfalso
      rcases Hnf i with hn | hn <;> rw [ho] at hn <;> cases hn
    | notFound =>
      exact ih (i + 1) 0 (by omega) (by omega) (by omega)
    | err =>
      by_cases h3 : ec + 1 ≥ 3
      · exfalso
        have hec2 : ec = 2 := by omega
        obtain ⟨hi2, hm2⟩ := h2 hec2
        obtain ⟨hi1, hm1⟩ := h1 (by omega)
        refine H (i - 2) ⟨hm2, ?_, ?_⟩
        · rw [show i - 2 + 1 = i - 1 by omega]
          exact hm1
        · rw [show i - 2 + 2 = i by omega]
          exact ho
      · rw [if_neg h3]
        refine ih (i + 1) (ec + 1) (by omega) (fun _ => ⟨by omega, by simpa using ho⟩)
          (fun hc => ⟨by omega, ?_⟩)
        obtain ⟨hi1, hm1⟩ := h1 (by omega)
        rw [show i + 1 - 2 = i - 1 by omega]
        exact hm1

theorem mcpLoadStep_local (mcpTools : String → List String) (acc : List String)
    (n : String) (h : n ∈ local_tools) : mcpLoadStep mcpTools acc n = acc := by
  simp only [local_tools, List.mem_cons, List.not_mem_nil, or_false] at h
  rcases h with h | h | h | h <;> subst h <;> rfl

theorem mcp_foldl_local (mcpTools : String → List String) :
    ∀ (ns : List String) (acc : List String), (∀ n ∈ ns, n ∈ local_tools) →
      ns.foldl (mcpLoadStep mcpTools) acc = acc := by
  intro ns
  induction ns with
  | nil => intro acc _; rfl
  | cons n rest ih =>
    intro acc h
    rw [List.foldl_cons, mcpLoadStep_local mcpTools acc n (h n (List.mem_cons_self n rest))]
    exact ih acc (fun x hx => h x (List.mem_cons_of_mem n hx))

theorem a2a_filter_local (ns : List String) (h : ∀ n ∈ ns, n ∈ local_tools) :
    ns.filter (fun n => pyStartsWith (pyLower n) "a2a:") = [] := by
  rw [List.filter_eq_nil_iff]
  intro n hn
  have := h n hn
  simp only [local_tools, List.mem_cons, List.not_mem_nil, or_false] at this
  rcases this with h' | h' | h' | h' <;> subst h' <;> decide

/-! ## Claim theorems -/

/-- Claim C3: the `AskSignature` is a deterministic function of the
normalized `(role, text, type, options)` quadruple. First conjunct:
`_run` normalizes `options or []`, so passing `None` and passing `[]`
yield the same signature. Second conjunct: assembling the payload
fields in any order gives the same signature, because `json.dumps`
sorts the keys before the text is hashed. Third conjunct: the whole
`_run` call behaves identically for absent and empty options. -/
theorem signature_deterministic_C3 :
    (∀ role text ty, runSignature role text ty none = runSignature role text ty (some []))
  ∧ (∀ role text ty options (l : List (String × Json)),
      l.Perm (sigPayload role text ty options) →
      sha256hex (utf8Bytes (dumpsObj (sortKeys l))) = make_signature role text ty options)
  ∧ (∀ cfg crew_type fetched uuid role text ty,
      HumanQueryTool_run cfg crew_type fetched uuid role text ty none =
      HumanQueryTool_run cfg crew_type fetched uuid role text ty (some [])) := by
  refine ⟨fun role text ty => rfl, ?_, fun cfg crew fetched uuid role text ty => rfl⟩
  intro role text ty options l hp
  have hnd : ((sigPayload role text ty options).map Prod.fst).Nodup := by
    simp [sigPayload]
  rw [make_signature, dumpsObjSorted, sortKeys_eq_of_perm l (sigPayload role text ty options) hp
    (((hp.map Prod.fst).nodup_iff).mpr hnd)]

/-- Witness for C3 at concrete inputs: swapping the first two payload
fields of a `select`-type ask with options leaves the signature
unchanged, and the two ways of passing no options agree. -/
theorem signature_deterministic_C3_witness :
    sha256hex (utf8Bytes (dumpsObj (sortKeys
      [("text", Json.str "pick one"), ("role", Json.str "user"),
       ("type", Json.str "select"), ("options", Json.arr [Json.str "a", Json.str "b"])]))) =
      make_signature "user" "pick one" "select" ["a", "b"]
  ∧ runSignature "user" "q" "text" none = runSignature "user" "q" "text" (some []) := by
  constructor
  · exact signature_deterministic_C3.2.1 "user" "pick one" "select" ["a", "b"] _
      (List.Perm.swap _ _ _)
  · exact signature_deterministic_C3.1 "user" "q" "text"

/-- Claim C4: in `_wait_for_response`, a lookup error increments the
consecutive-error counter and the third consecutive error raises
`RuntimeError`; a successful lookup that finds nothing resets the
counter to zero. First conjunct: three consecutive errors starting from
a clean counter abort with the error. Second conjunct: after two errors
a successful empty lookup continues the loop with the counter back at
zero. Third conjunct: a stream with no three consecutive errors never
aborts, whatever the deadline. -/
theorem polling_error_escalation_C4 :
    (∀ (outcomes : Nat → PollOutcome) fuel i,
      outcomes i = PollOutcome.err → outcomes (i + 1) = PollOutcome.err →
      outcomes (i + 2) = PollOutcome.err →
      waitFrom outcomes (fuel + 3) i 0 = Except.error PyErr.runtimeError)
  ∧ (∀ (outcomes : Nat → PollOutcome) fuel i,
      outcomes i = PollOutcome.err → outcomes (i + 1) = PollOutcome.err →
      outcomes (i + 2) = PollOutcome.notFound →
      waitFrom outcomes (fuel + 3) i 0 = waitFrom outcomes fuel (i + 3) 0)
  ∧ (∀ (outcomes : Nat → PollOutcome),
      (∀ j, ¬ (outcomes j = PollOutcome.err ∧ outcomes (j + 1) = PollOutcome.err ∧
        outcomes (j + 2) = PollOutcome.err)) →
      ∀ fuel i e, waitFrom outcomes fuel i 0 ≠ Except.error e) := by
  refine ⟨?_, ?_, ?_⟩
  · intro outcomes fuel i h1 h2 h3
    show waitFrom outcomes (fuel + 2 + 1) i 0 = Except.error PyErr.runtimeError
    simp only [waitFrom, h1, h2, h3]
    norm_num
  · intro outcomes fuel i h1 h2 h3
    show waitFrom outcomes (fuel + 2 + 1) i 0 = waitFrom outcomes fuel (i + 3) 0
    simp only [waitFrom, h1, h2, h3]
    norm_num
  · intro outcomes H fuel i e
    exact waitFrom_ne_error_aux outcomes H fuel i 0 (by omega) (by omega) (by omega) e

/-- Witness for C4: an all-error stream aborts within three iterations;
on the stream `err, err, notFound, notFound, ...` the first three
iterations land back at a clean counter; an all-empty stream never
aborts. -/
theorem polling_error_escalation_C4_witness :
    waitFrom (fun _ => PollOutcome.err) 3 0 0 = Except.error PyErr.runtimeError
  ∧ waitFrom (fun n => if n < 2 then PollOutcome.err else PollOutcome.notFound) 3 0 0 =
      waitFrom (fun n => if n < 2 then PollOutcome.err else PollOutcome.notFound) 0 3 0
  ∧ (∀ e, waitFrom (fun _ => PollOutcome.notFound) 36 0 0 ≠ Except.error e) := by
  refine ⟨polling_error_escalation_C4.1 _ 0 0 rfl rfl rfl,
    polling_error_escalation_C4.2.1 _ 0 0 rfl rfl rfl,
    fun e => polling_error_escalation_C4.2.2 _ (fun j => by simp) 36 0 e⟩

/-- Claim C5: when the deadline is already past (`timeout_sec = 0`), or
when it elapses with every lookup finding no response (errors allowed as
long as no three are consecutive), `_wait_for_response` returns the
fixed rejection sentinel `"사용자 미응답 거절"` instead of raising. -/
theorem timeout_returns_sentinel_C5 :
    (∀ (outcomes : Nat → PollOutcome) poll_interval_sec,
      wait_for_response outcomes 0 poll_interval_sec = Except.ok "사용자 미응답 거절")
  ∧ (∀ (outcomes : Nat → PollOutcome) timeout_sec poll_interval_sec,
      (∀ i, outcomes i = PollOutcome.notFound ∨ outcomes i = PollOutcome.err) →
      (∀ j, ¬ (outcomes j = PollOutcome.err ∧ outcomes (j + 1) = PollOutcome.err ∧
        outcomes (j + 2) = PollOutcome.err)) →
      wait_for_response outcomes timeout_sec poll_interval_sec =
        Except.ok "사용자 미응답 거절") := by
  constructor
  · intro outcomes p
    rw [wait_for_response]
    rcases p with _ | q
    · rfl
    · rw [show (0 + (q + 1) - 1) / (q + 1) = 0 from Nat.div_eq_of_lt (by omega)]
      rfl
  · intro outcomes timeout_sec poll_interval_sec Hnf H
    exact waitFrom_sentinel_aux outcomes H Hnf _ 0 0 (by omega) (by omega) (by omega)

/-- Witness for C5: with a zero deadline the sentinel is returned even
though a response would have been found, and with the default deadline
an all-empty stream ends in the sentinel. -/
theorem timeout_returns_sentinel_C5_witness :
    wait_for_response (fun _ => PollOutcome.found [("answer", Json.str "yes")]) 0 5 =
      Except.ok "사용자 미응답 거절"
  ∧ wait_for_response (fun _ => PollOutcome.notFound) 180 5 =
      Except.ok "사용자 미응답 거절" :=
  ⟨timeout_returns_sentinel_C5.1 _ 5,
   timeout_returns_sentinel_C5.2 _ 180 5 (fun i => Or.inl rfl) (fun j => by simp)⟩

/-- Claim C9: `Mem0Tool._run` keeps the hits scoring at least `0.5` in
descending score order, falls back to the top five hits by score when
fewer than five pass the threshold (all hits when fewer than five
exist), and therefore never returns an empty selection from a nonempty
hit list. -/
theorem mem0_relevance_filter_C9 (hits : List Hit) :
    (∀ h ∈ mem0SelectHits hits, h ∈ hits)
  ∧ List.Sorted hitGe (mem0SelectHits hits)
  ∧ (5 ≤ (hits.filter (fun h => mkRat 1 2 ≤ hitScore h)).length →
      (mem0SelectHits hits).Perm (hits.filter (fun h => mkRat 1 2 ≤ hitScore h)))
  ∧ ((hits.filter (fun h => mkRat 1 2 ≤ hitScore h)).length < 5 →
      (mem0SelectHits hits).length = min 5 hits.length)
  ∧ ((hits.filter (fun h => mkRat 1 2 ≤ hitScore h)).length < 5 → hits.length ≤ 5 →
      (mem0SelectHits hits).Perm hits)
  ∧ (hits ≠ [] → mem0SelectHits hits ≠ []) := by
  haveI : IsTotal Hit hitGe := ⟨fun a b => le_total (hitScore b) (hitScore a)⟩
  haveI : IsTrans Hit hitGe := ⟨fun a b c h1 h2 => le_trans h2 h1⟩
  have pS : (List.insertionSort hitGe hits).Perm hits := List.perm_insertionSort hitGe hits
  have hfp : ((List.insertionSort hitGe hits).filter
      (fun h => decide (mkRat 1 2 ≤ hitScore h))).Perm
      (hits.filter (fun h => decide (mkRat 1 2 ≤ hitScore h))) := pS.filter _
  have hlen := hfp.length_eq
  have hSorted : List.Sorted hitGe (List.insertionSort hitGe hits) :=
    List.sorted_insertionSort hitGe hits
  refine ⟨?_, ?_, ?_, ?_, ?_, ?_⟩
  · intro h hm
    rw [mem0SelectHits] at hm
    split at hm
    · exact pS.mem_iff.mp (List.take_subset 5 _ hm)
    · exact pS.mem_iff.mp (List.mem_of_mem_filter hm)
  · rw [mem0SelectHits]
    split
    · exact List.Pairwise.sublist (List.take_sublist 5 _) hSorted
    · exact List.Pairwise.sublist (List.filter_sublist _) hSorted
  · intro hc
    rw [mem0SelectHits]
    split
    · rename_i hlt
      omega
    · exact hfp
  · intro hc
    rw [mem0SelectHits]
    split
    · rw [List.length_take, pS.length_eq]
    · rename_i hge
      omega
  · intro hc hle
    rw [mem0SelectHits]
    split
    · rw [List.take_of_length_le (by rw [pS.length_eq]; omega)]
      exact pS
    · rename_i hge
      omega
  · intro hne
    have hpos : 0 < hits.length := List.length_pos.mpr hne
    rw [mem0SelectHits]
    split
    · intro hnil
      have hlen5 : (List.take 5 (List.insertionSort hitGe hits)).length = 0 := by
        rw [hnil]
        rfl
      rw [List.length_take, pS.length_eq] at hlen5
      omega
    · rename_i hge
      intro hnil
      rw [hnil] at hge
      simp at hge

/-- Witness for C9: two hits scoring `0.25` and `0.75` — fewer than five
pass the threshold, so both are kept (sorted by descending score) and
the selection is nonempty. -/
theorem mem0_relevance_filter_C9_witness :
    List.Sorted hitGe (mem0SelectHits [⟨"a", some (mkRat 1 4)⟩, ⟨"b", some (mkRat 3 4)⟩])
  ∧ mem0SelectHits [⟨"a", some (mkRat 1 4)⟩, ⟨"b", some (mkRat 3 4)⟩] ≠ []
  ∧ (mem0SelectHits [⟨"a", some (mkRat 1 4)⟩, ⟨"b", some (mkRat 3 4)⟩]).Perm
      [⟨"a", some (mkRat 1 4)⟩, ⟨"b", some (mkRat 3 4)⟩] :=
  ⟨(mem0_relevance_filter_C9 _).2.1,
   (mem0_relevance_filter_C9 _).2.2.2.2.2 (List.cons_ne_nil _ _),
   (mem0_relevance_filter_C9 _).2.2.2.2.1 (by decide) (by decide)⟩

theorem listIsPrefix_head_eq {c d : Char} {cs ds l : List Char}
    (hx : (c :: cs) <+: l) (hy : (d :: ds) <+: l) : c = d := by
  obtain ⟨t1, ht1⟩ := hx
  obtain ⟨t2, ht2⟩ := hy
  rw [← ht1] at ht2
  simp only [List.cons_append] at ht2
  exact ((List.cons.injEq _ _ _ _).mp ht2.symm).1

theorem resolveTransport_infer_ws (cfg : ServerCfg) (u : String)
    (h1 : optTruthy cfg.transport = false) (h2 : optTruthy cfg.typeField = false)
    (hu : cfg.url = some u)
    (hws : pyStartsWith u "ws://" = true ∨ pyStartsWith u "wss://" = true) :
    resolveTransport cfg = "websocket" := by
  have hne : ¬ u = "" := by
    rintro rfl
    rcases hws with h | h <;> simp [pyStartsWith] at h
  simp only [resolveTransport, h1, h2, hu, Bool.false_eq_true, if_false]
  rw [if_pos hne, if_pos hws]
  rfl

theorem resolveTransport_infer_http (cfg : ServerCfg) (u : String)
    (h1 : optTruthy cfg.transport = false) (h2 : optTruthy cfg.typeField = false)
    (hu : cfg.url = some u)
    (hhttp : pyStartsWith u "http://" = true ∨ pyStartsWith u "https://" = true) :
    resolveTransport cfg = "streamable-http" := by
  have hne : ¬ u = "" := by
    rintro rfl
    rcases hhttp with h | h <;> simp [pyStartsWith] at h
  have hpre : ∃ cs, ('h' :: cs) <+: u.data := by
    rcases hhttp with h | h <;>
      · simp only [pyStartsWith, List.isPrefixOf_iff_prefix] at h
        exact ⟨_, h⟩
  have hnws : ¬ (pyStartsWith u "ws://" = true ∨ pyStartsWith u "wss://" = true) := by
    obtain ⟨cs, hcs⟩ := hpre
    rintro (h | h) <;>
      · simp only [pyStartsWith, List.isPrefixOf_iff_prefix] at h
        have := listIsPrefix_head_eq h hcs
        simp at this
  simp only [resolveTransport, h1, h2, hu, Bool.false_eq_true, if_false]
  rw [if_pos hne, if_neg hnws, if_pos hhttp]
  rfl

theorem resolveTransport_explicit (cfg : ServerCfg) (tv : String)
    (htv : cfg.transport = some tv) (hne : ¬ tv = "") :
    resolveTransport cfg = pyLower tv := by
  have hsome : optTruthy (some tv) = true := by simpa [optTruthy] using hne
  simp only [resolveTransport, htv, hsome, if_true]
  rfl

theorem resolveTransport_typeField (cfg : ServerCfg) (tv : String)
    (h1 : optTruthy cfg.transport = false)
    (htv : cfg.typeField = some tv) (hne : ¬ tv = "") :
    resolveTransport cfg = pyLower tv := by
  have hsome : optTruthy (some tv) = true := by simpa [optTruthy] using hne
  simp only [resolveTransport, h1, htv, hsome, Bool.false_eq_true, if_false, if_true]
  rfl

theorem resolveTransport_stdio_default (cfg : ServerCfg)
    (h1 : optTruthy cfg.transport = false) (h2 : optTruthy cfg.typeField = false)
    (hurl : cfg.url = none ∨ cfg.url = some "" ∨
      (∃ u, cfg.url = some u ∧ pyStartsWith u "ws://" = false ∧
        pyStartsWith u "wss://" = false ∧ pyStartsWith u "http://" = false ∧
        pyStartsWith u "https://" = false)) :
    resolveTransport cfg = "stdio" := by
  have h2' : cfg.typeField = none ∨ cfg.typeField = some "" := by
    rcases htf : cfg.typeField with _ | s
    · exact Or.inl rfl
    · rw [htf] at h2
      simp only [optTruthy, decide_eq_false_iff_not, not_not] at h2
      rw [h2]
      exact Or.inr rfl
  simp only [resolveTransport, h1, Bool.false_eq_true, if_false]
  rcases h2' with htf | htf <;> rw [htf] <;>
    rcases hurl with h | h | ⟨u, hu, hw1, hw2, hh1, hh2⟩
  · rw [h]
    rfl
  · rw [h]
    rfl
  · simp only [hu]
    by_cases hne : u = ""
    · subst hne
      rfl
    · have hnws : ¬ (pyStartsWith u "ws://" = true ∨ pyStartsWith u "wss://" = true) := by
        rw [hw1, hw2]
        simp
      have hnh : ¬ (pyStartsWith u "http://" = true ∨ pyStartsWith u "https://" = true) := by
        rw [hh1, hh2]
        simp
      rw [if_pos hne, if_neg hnws, if_neg hnh]
      rfl
  · rw [h]
    rfl
  · rw [h]
    rfl
  · simp only [hu]
    by_cases hne : u = ""
    · subst hne
      rfl
    · have hnws : ¬ (pyStartsWith u "ws://" = true ∨ pyStartsWith u "wss://" = true) := by
        rw [hw1, hw2]
        simp
      have hnh : ¬ (pyStartsWith u "http://" = true ∨ pyStartsWith u "https://" = true) := by
        rw [hh1, hh2]
        simp
      rw [if_pos hne, if_neg hnws, if_neg hnh]
      rfl

/-- Claim C6: `_build_server_parameters` selects the transport with
precedence `transport` field > `type` field > URL-scheme inference >
`stdio` default. With no explicit field, a `ws://`/`wss://` URL yields
websocket parameters, an `http://`/`https://` URL yields
streamable-http parameters, and a configuration with neither a command
nor a recognizable URL resolves to `none`. -/
theorem transport_inference_C6 :
    (∀ (cfg : ServerCfg) tv, cfg.transport = some tv → ¬ tv = "" →
      resolveTransport cfg = pyLower tv)
  ∧ (∀ (cfg : ServerCfg) tv, optTruthy cfg.transport = false →
      cfg.typeField = some tv → ¬ tv = "" → resolveTransport cfg = pyLower tv)
  ∧ (∀ (cfg : ServerCfg) env t npx u, optTruthy cfg.transport = false →
      optTruthy cfg.typeField = false → cfg.url = some u →
      (pyStartsWith u "ws://" = true ∨ pyStartsWith u "wss://" = true) →
      build_server_parameters cfg env t npx =
        some (ServerParams.websocket u cfg.headers t))
  ∧ (∀ (cfg : ServerCfg) env t npx u, optTruthy cfg.transport = false →
      optTruthy cfg.typeField = false → cfg.url = some u →
      (pyStartsWith u "http://" = true ∨ pyStartsWith u "https://" = true) →
      build_server_parameters cfg env t npx =
        some (ServerParams.streamableHttp u cfg.headers t))
  ∧ (∀ (cfg : ServerCfg) env t npx, optTruthy cfg.transport = false →
      optTruthy cfg.typeField = false →
      (cfg.command = none ∨ cfg.command = some "") →
      (cfg.url = none ∨ cfg.url = some "" ∨
        (∃ u, cfg.url = some u ∧ pyStartsWith u "ws://" = false ∧
          pyStartsWith u "wss://" = false ∧ pyStartsWith u "http://" = false ∧
          pyStartsWith u "https://" = false)) →
      build_server_parameters cfg env t npx = none) := by
  refine ⟨resolveTransport_explicit, resolveTransport_typeField, ?_, ?_, ?_⟩
  · intro cfg env t npx u h1 h2 hu hws
    have hne : ¬ u = "" := by
      rintro rfl
      rcases hws with h | h <;> simp [pyStartsWith] at h
    have htr := resolveTransport_infer_ws cfg u h1 h2 hu hws
    simp only [build_server_parameters, htr, hu]
    rw [if_pos trivial, if_neg hne, if_neg (by decide)]
  · intro cfg env t npx u h1 h2 hu hh
    have hne : ¬ u = "" := by
      rintro rfl
      rcases hh with h | h <;> simp [pyStartsWith] at h
    have htr := resolveTransport_infer_http cfg u h1 h2 hu hh
    simp only [build_server_parameters, htr, hu]
    rw [if_pos (Or.inl trivial), if_neg (by decide), if_neg (by decide), if_neg hne]
  · intro cfg env t npx h1 h2 hcmd hurl
    have htr := resolveTransport_stdio_default cfg h1 h2 hurl
    simp only [build_server_parameters, htr]
    rw [if_pos (Or.inr trivial)]
    rcases hcmd with h | h <;> rw [h]
    rfl

/-- Witness for C6: a `wss://` URL infers websocket, an `https://` URL
infers streamable-http, explicit `transport: "SSE"` wins over both the
`type` field and the URL scheme, and an empty configuration resolves to
`none`. -/
theorem transport_inference_C6_witness :
    resolveTransport ⟨some "SSE", some "websocket", some "https://x", none, [], []⟩ = "sse"
  ∧ build_server_parameters ⟨none, none, some "wss://x", none, [], []⟩ [] 40 "npx" =
      some (ServerParams.websocket "wss://x" [] 40)
  ∧ build_server_parameters ⟨none, none, some "https://x", none, [], []⟩ [] 40 "npx" =
      some (ServerParams.streamableHttp "https://x" [] 40)
  ∧ build_server_parameters ⟨none, none, some "ftp://x", none, [], []⟩ [] 40 "npx" = none := by
  refine ⟨transport_inference_C6.1 _ "SSE" rfl (by decide), ?_, ?_, ?_⟩
  · exact transport_inference_C6.2.2.1 _ [] 40 "npx" "wss://x" rfl rfl rfl (Or.inr (by decide))
  · exact transport_inference_C6.2.2.2.1 _ [] 40 "npx" "https://x" rfl rfl rfl
      (Or.inr (by decide))
  · exact transport_inference_C6.2.2.2.2 _ [] 40 "npx" rfl rfl (Or.inl rfl)
      (Or.inr (Or.inr ⟨"ftp://x", rfl, by decide, by decide, by decide, by decide⟩))

/-- Claim C7: `_build_server_parameters` is total and returns `none`
whenever the required field of the selected transport is missing or
falsy (`command` for stdio, `url` for websocket/sse/streamable-http),
or the transport value is unrecognized; being a total Lean function
into `Option`, it raises nothing on these inputs. -/
theorem resolver_totality_C7 :
    (∀ (cfg : ServerCfg) env t npx,
      (resolveTransport cfg = "stdio" ∨ resolveTransport cfg = "") →
      (cfg.command = none ∨ cfg.command = some "") →
      build_server_parameters cfg env t npx = none)
  ∧ (∀ (cfg : ServerCfg) env t npx,
      (resolveTransport cfg = "websocket" ∨ resolveTransport cfg = "sse" ∨
        resolveTransport cfg = "streamable-http" ∨ resolveTransport cfg = "http") →
      (cfg.url = none ∨ cfg.url = some "") →
      build_server_parameters cfg env t npx = none)
  ∧ (∀ (cfg : ServerCfg) env t npx,
      resolveTransport cfg ≠ "" → resolveTransport cfg ≠ "stdio" →
      resolveTransport cfg ≠ "websocket" → resolveTransport cfg ≠ "streamable-http" →
      resolveTransport cfg ≠ "http" → resolveTransport cfg ≠ "sse" →
      build_server_parameters cfg env t npx = none) := by
  refine ⟨?_, ?_, ?_⟩
  · intro cfg env t npx htr hcmd
    rcases htr with htr | htr <;> simp only [build_server_parameters, htr] <;>
      [rw [if_pos (Or.inr trivial)]; rw [if_pos (Or.inl trivial)]] <;>
      rcases hcmd with h | h <;> simp only [h] <;> rfl
  · intro cfg env t npx htr hurl
    rcases htr with htr | htr | htr | htr <;> simp only [build_server_parameters, htr]
    · rw [if_pos trivial]
      rcases hurl with h | h <;> simp only [h] <;> try rfl
    · rw [if_neg (by decide), if_neg (by decide), if_neg (by decide), if_pos trivial]
      rcases hurl with h | h <;> simp only [h] <;> try rfl
    · rw [if_neg (by decide), if_neg (by decide), if_pos (Or.inl trivial)]
      rcases hurl with h | h <;> simp only [h] <;> try rfl
    · rw [if_neg (by decide), if_neg (by decide), if_pos (Or.inr trivial)]
      rcases hurl with h | h <;> simp only [h] <;> try rfl
  · intro cfg env t npx hne1 hne2 hne3 hne4 hne5 hne6
    simp only [build_server_parameters]
    rw [if_neg (fun h => h.elim hne1 hne2), if_neg hne3,
      if_neg (fun h => h.elim hne4 hne5), if_neg hne6]

/-- Witness for C7: an explicitly stdio configuration with no command,
a websocket configuration with no URL, and an unrecognized transport
each yield `none`. -/
theorem resolver_totality_C7_witness :
    build_server_parameters ⟨some "stdio", none, none, none, [], []⟩ [] 40 "npx" = none
  ∧ build_server_parameters ⟨some "websocket", none, none, none, [], []⟩ [] 40 "npx" = none
  ∧ build_server_parameters ⟨some "carrier-pigeon", none, none, none, [], []⟩ [] 40 "npx" =
      none := by
  refine ⟨?_, ?_, ?_⟩
  · exact resolver_totality_C7.1 _ [] 40 "npx" (Or.inl (by decide)) (Or.inl rfl)
  · exact resolver_totality_C7.2.1 _ [] 40 "npx" (Or.inl (by decide)) (Or.inl rfl)
  · exact resolver_totality_C7.2.2 _ [] 40 "npx" (by decide) (by decide) (by decide)
      (by decide) (by decide) (by decide)

/-- Claim C10: `MementoTool.__init__` reads the unbound module-level
name `proc_inst_id`, so construction raises `NameError` for every
`tenant_id`; consequently `_load_memento`, which re-raises loader
exceptions, never returns a memento capability when `tenant_id` is
truthy. -/
theorem memento_constructor_raises_C10 :
    (∀ tenant_id, MementoTool_init tenant_id = Except.error PyErr.nameError)
  ∧ (∀ cfg : LoaderCfg, optTruthy cfg.tenant_id = true →
      load_memento cfg = Except.error PyErr.nameError) := by
  constructor
  · intro t
    rfl
  · intro cfg h
    rw [load_memento, if_pos h,
      show MementoTool_init (cfg.tenant_id.getD "") = Except.error PyErr.nameError from rfl]

/-- Witness for C10 at the default tenant and at a loader with a set
tenant id. -/
theorem memento_constructor_raises_C10_witness :
    MementoTool_init "localhost" = Except.error PyErr.nameError
  ∧ load_memento ⟨some "acme", none, none⟩ = Except.error PyErr.nameError :=
  ⟨memento_constructor_raises_C10.1 "localhost",
   memento_constructor_raises_C10.2 ⟨some "acme", none, none⟩ (by decide)⟩

/-- Counterexample to claim C8 as stated: one provisioning call with
user context but no tenant, requesting
`["mem0", "mem0", "memento", "github", "github"]` where `github` is an
MCP server publishing one tool. The duplicate MCP request is loaded
twice, so the returned names are not globally unique, and no capability
named `memento` is produced at all. -/
theorem create_tools_dedup_C8_counterexample :
    create_tools_from_names ⟨none, some "alice", some "agent"⟩
      ["mem0", "mem0", "memento", "github", "github"] none (fun _ => [])
      (fun k => if k = "github" then ["github_search"] else []) =
      Except.ok ["mem0", "github_search", "github_search"]
  ∧ ¬ (["mem0", "github_search", "github_search"] : List String).Nodup
  ∧ "memento" ∉ (["mem0", "github_search", "github_search"] : List String) :=
  ⟨rfl, by decide, by decide⟩

/-- Claim C8 amended: duplicates among requested *local* tool names are
absorbed — every name in `local_tools` is skipped by the per-name loop,
and the local loaders run exactly once per provisioning call. With a
truthy `user_id` and no tenant, any request made only of local names
returns exactly one capability named `mem0` and none named `memento`
(the memento loader is skipped without a tenant); with a truthy
`tenant_id` the whole call raises instead, because the `MementoTool`
constructor reads an unbound name. Requested MCP names, in contrast,
are not deduplicated (see the counterexample). -/
theorem create_tools_local_names_C8 :
    (∀ (cfg : LoaderCfg) ns aty a2aT mcpT,
      optTruthy cfg.tenant_id = false → optTruthy cfg.user_id = true →
      (∀ n ∈ ns, n ∈ local_tools) →
      create_tools_from_names cfg ns aty a2aT mcpT = Except.ok ["mem0"])
  ∧ (∀ (cfg : LoaderCfg) ns aty a2aT mcpT, optTruthy cfg.tenant_id = true →
      create_tools_from_names cfg ns aty a2aT mcpT =
        Except.error PyErr.nameError) := by
  constructor
  · intro cfg ns aty a2aT mcpT htf htu hlocal
    have hm : load_memento cfg = Except.ok [] := by
      rw [load_memento, if_neg (by rw [htf]; simp)]
    have hm0 : load_mem0 cfg = ["mem0"] := by
      rw [load_mem0, if_pos htu]
    have hha : load_human_asked cfg = [] := by
      rw [load_human_asked, if_neg (by rw [htf]; simp)]
    have hdmn : load_dmn_rule cfg = [] := by
      rw [load_dmn_rule, if_neg (by rw [htf]; simp)]
    have hfold : ns.foldl (mcpLoadStep mcpT) [] = [] := mcp_foldl_local mcpT ns [] hlocal
    have hfilter : ns.filter (fun n => pyStartsWith (pyLower n) "a2a:") = [] :=
      a2a_filter_local ns hlocal
    simp only [create_tools_from_names, hm, hm0, hha, hdmn, hfold, hfilter]
    by_cases ha : pyLower (aty.getD "") = "a2a" <;> simp [ha]
  · intro cfg ns aty a2aT mcpT ht
    have hm : load_memento cfg = Except.error PyErr.nameError := by
      rw [load_memento, if_pos ht,
        show MementoTool_init (cfg.tenant_id.getD "") = Except.error PyErr.nameError from rfl]
    simp only [create_tools_from_names, hm]

/-- Witness for amended C8: requesting `["mem0", "mem0", "memento"]`
yields exactly `["mem0"]` without a tenant, and raises with one. -/
theorem create_tools_local_names_C8_witness :
    create_tools_from_names ⟨none, some "alice", none⟩ ["mem0", "mem0", "memento"]
      none (fun _ => []) (fun _ => []) = Except.ok ["mem0"]
  ∧ create_tools_from_names ⟨some "acme", some "alice", none⟩ ["mem0", "mem0", "memento"]
      none (fun _ => []) (fun _ => []) = Except.error PyErr.nameError :=
  ⟨create_tools_local_names_C8.1 ⟨none, some "alice", none⟩ _ none _ _ rfl rfl (by decide),
   create_tools_local_names_C8.2 ⟨some "acme", some "alice", none⟩ _ none _ _ rfl⟩

/-- Claim C1, amended to the scan order the code implements: when the
*newest* `human_asked` event whose stored signature matches the current
inputs and whose `job_id` is truthy carries job `J`, and the *newest*
`human_response` event with `job_id` `J` has a string `answer`, `_run`
returns that answer immediately, appends no event, sends no
notification, and does not poll. (The original claim quantified over
*any* matching ask/response pair in the history; the counterexample
shows that an unanswered newer ask with the same signature is polled
instead.) -/
theorem run_reuses_answer_C1 (cfg : ToolCfg) (crew_type : Option String)
    (evs pre rest pre2 rest2 : List Event) (askedEv respEv : Event)
    (uuid role text ty : String) (options : Option (List String))
    (J answer : String) (respData : List (String × Json))
    (htask : cfg.task_id ≠ "")
    (hsplit : evs.reverse = pre ++ askedEv :: rest)
    (hpre : ∀ e ∈ pre,
      askJobMatch (make_signature role text ty (options.getD [])) e = none)
    (hmatch : askJobMatch (make_signature role text ty (options.getD [])) askedEv = some J)
    (hsplit2 : evs.reverse = pre2 ++ respEv :: rest2)
    (hpre2 : ∀ e ∈ pre2, respDataFor J e = none)
    (hresp : respDataFor J respEv = some respData)
    (hanswer : respData.lookup "answer" = some (Json.str answer)) :
    HumanQueryTool_run cfg crew_type (Except.ok evs) uuid role text ty options =
      ⟨none, false, RunResult.immediate answer⟩ := by
  have h1 : firstSome (askJobMatch (make_signature role text ty (options.getD [])))
      evs.reverse = some J := by
    rw [hsplit, firstSome_append_none _ _ _ hpre, firstSome_cons_some _ _ _ hmatch]
  have h2 : firstSome (respDataFor J) evs.reverse = some respData := by
    rw [hsplit2, firstSome_append_none _ _ _ hpre2, firstSome_cons_some _ _ _ hresp]
  simp only [HumanQueryTool_run, if_pos htask, h1, h2, hanswer]

/-- Witness for amended C1: a history holding one matching ask (job
`J7`) and its answered response; the duplicate call returns `"yes"`
with no append, no notification and no polling. -/
theorem run_reuses_answer_C1_witness :
    HumanQueryTool_run ⟨"p1", "t1", none, none, none⟩ none
      (Except.ok
        [⟨"human_response", some "J7", some [("answer", Json.str "yes")]⟩,
         ⟨"human_asked", some "J7",
          some [("signature", Json.str (make_signature "user" "q" "text" []))]⟩])
      "u0" "user" "q" "text" none =
      ⟨none, false, RunResult.immediate "yes"⟩ :=
  run_reuses_answer_C1 ⟨"p1", "t1", none, none, none⟩ none
    [⟨"human_response", some "J7", some [("answer", Json.str "yes")]⟩,
     ⟨"human_asked", some "J7",
      some [("signature", Json.str (make_signature "user" "q" "text" []))]⟩]
    []
    [⟨"human_response", some "J7", some [("answer", Json.str "yes")]⟩]
    [⟨"human_asked", some "J7",
      some [("signature", Json.str (make_signature "user" "q" "text" []))]⟩]
    []
    ⟨"human_asked", some "J7",
     some [("signature", Json.str (make_signature "user" "q" "text" []))]⟩
    ⟨"human_response", some "J7", some [("answer", Json.str "yes")]⟩
    "u0" "user" "q" "text" none "J7" "yes" [("answer", Json.str "yes")]
    (by decide) rfl (fun e he => absurd he (List.not_mem_nil e)) rfl rfl
    (by
      intro e he
      simp only [List.mem_singleton] at he
      subst he
      rfl)
    rfl rfl

/-- Counterexample to claim C1 as stated: the history contains a
matching `human_asked` (job `J1`, job id set) *and* a `human_response`
for `J1` with string answer `"yes"`, yet the call does not return that
answer — a newer ask with the same signature (job `J2`) is still
unanswered, and the newest-first scan polls `J2` instead. -/
theorem run_reuses_answer_C1_counterexample :
    HumanQueryTool_run ⟨"p1", "t1", none, none, none⟩ none
      (Except.ok
        [⟨"human_asked", some "J1",
          some [("signature", Json.str (make_signature "user" "q" "text" []))]⟩,
         ⟨"human_response", some "J1", some [("answer", Json.str "yes")]⟩,
         ⟨"human_asked", some "J2",
          some [("signature", Json.str (make_signature "user" "q" "text" []))]⟩])
      "u0" "user" "q" "text" none =
      ⟨none, false, RunResult.poll "J2"⟩
  ∧ (⟨"human_asked", some "J1",
      some [("signature", Json.str (make_signature "user" "q" "text" []))]⟩ : Event) ∈
      ([⟨"human_asked", some "J1",
         some [("signature", Json.str (make_signature "user" "q" "text" []))]⟩,
        ⟨"human_response", some "J1", some [("answer", Json.str "yes")]⟩,
        ⟨"human_asked", some "J2",
         some [("signature", Json.str (make_signature "user" "q" "text" []))]⟩] : List Event)
  ∧ (⟨"human_response", some "J1", some [("answer", Json.str "yes")]⟩ : Event) ∈
      ([⟨"human_asked", some "J1",
         some [("signature", Json.str (make_signature "user" "q" "text" []))]⟩,
        ⟨"human_response", some "J1", some [("answer", Json.str "yes")]⟩,
        ⟨"human_asked", some "J2",
         some [("signature", Json.str (make_signature "user" "q" "text" []))]⟩] : List Event)
  ∧ (HumanQueryTool_run ⟨"p1", "t1", none, none, none⟩ none
      (Except.ok
        [⟨"human_asked", some "J1",
          some [("signature", Json.str (make_signature "user" "q" "text" []))]⟩,
         ⟨"human_response", some "J1", some [("answer", Json.str "yes")]⟩,
         ⟨"human_asked", some "J2",
          some [("signature", Json.str (make_signature "user" "q" "text" []))]⟩])
      "u0" "user" "q" "text" none).result ≠ RunResult.immediate "yes" := by
  refine ⟨rfl, List.Mem.head _, List.Mem.tail _ (List.Mem.head _), ?_⟩
  intro h
  rw [show (HumanQueryTool_run ⟨"p1", "t1", none, none, none⟩ none
      (Except.ok
        [⟨"human_asked", some "J1",
          some [("signature", Json.str (make_signature "user" "q" "text" []))]⟩,
         ⟨"human_response", some "J1", some [("answer", Json.str "yes")]⟩,
         ⟨"human_asked", some "J2",
          some [("signature", Json.str (make_signature "user" "q" "text" []))]⟩])
      "u0" "user" "q" "text" none).result = RunResult.poll "J2" from rfl] at h
  exact RunResult.noConfusion h

/-- Claim C2, amended to the scan order the code implements: when the
*newest* `human_asked` event with matching signature and truthy
`job_id` carries job `J` and the history holds no `human_response` for
`J`, `_run` mints no new job id and appends nothing; it polls the
existing job `J`. (The original claim quantified over *any* matching
unanswered ask; the counterexample shows that an answered *newer* ask
with the same signature short-circuits the call instead.) -/
theorem run_joins_existing_job_C2 (cfg : ToolCfg) (crew_type : Option String)
    (evs pre rest : List Event) (askedEv : Event)
    (uuid role text ty : String) (options : Option (List String)) (J : String)
    (htask : cfg.task_id ≠ "")
    (hsplit : evs.reverse = pre ++ askedEv :: rest)
    (hpre : ∀ e ∈ pre,
      askJobMatch (make_signature role text ty (options.getD [])) e = none)
    (hmatch : askJobMatch (make_signature role text ty (options.getD [])) askedEv = some J)
    (hnoresp : ∀ e ∈ evs, respDataFor J e = none) :
    HumanQueryTool_run cfg crew_type (Except.ok evs) uuid role text ty options =
      ⟨none, false, RunResult.poll J⟩ := by
  have h1 : firstSome (askJobMatch (make_signature role text ty (options.getD [])))
      evs.reverse = some J := by
    rw [hsplit, firstSome_append_none _ _ _ hpre, firstSome_cons_some _ _ _ hmatch]
  have h2 : firstSome (respDataFor J) evs.reverse = none :=
    firstSome_eq_none _ _ (fun e he => hnoresp e (List.mem_reverse.mp he))
  simp only [HumanQueryTool_run, if_pos htask, h1, h2]

/-- Witness for amended C2: one matching unanswered ask with job `J8`;
the duplicate call polls `J8` and appends nothing. -/
theorem run_joins_existing_job_C2_witness :
    HumanQueryTool_run ⟨"p1", "t1", none, none, none⟩ none
      (Except.ok
        [⟨"human_asked", some "J8",
          some [("signature", Json.str (make_signature "user" "q" "text" []))]⟩])
      "u0" "user" "q" "text" none =
      ⟨none, false, RunResult.poll "J8"⟩ :=
  run_joins_existing_job_C2 ⟨"p1", "t1", none, none, none⟩ none
    [⟨"human_asked", some "J8",
      some [("signature", Json.str (make_signature "user" "q" "text" []))]⟩]
    [] []
    ⟨"human_asked", some "J8",
     some [("signature", Json.str (make_signature "user" "q" "text" []))]⟩
    "u0" "user" "q" "text" none "J8"
    (by decide) rfl (fun e he => absurd he (List.not_mem_nil e)) rfl
    (by
      intro e he
      simp only [List.mem_singleton] at he
      subst he
      rfl)

/-- Counterexample to claim C2 as stated: the history contains a
matching `human_asked` with job `J2` and no response for `J2`, yet the
call does not poll `J2` — a *newer* matching ask (job `J1`) has a
stored answer, which the newest-first scan returns immediately. -/
theorem run_joins_existing_job_C2_counterexample :
    HumanQueryTool_run ⟨"p1", "t1", none, none, none⟩ none
      (Except.ok
        [⟨"human_asked", some "J2",
          some [("signature", Json.str (make_signature "user" "q" "text" []))]⟩,
         ⟨"human_asked", some "J1",
          some [("signature", Json.str (make_signature "user" "q" "text" []))]⟩,
         ⟨"human_response", some "J1", some [("answer", Json.str "yes")]⟩])
      "u0" "user" "q" "text" none =
      ⟨none, false, RunResult.immediate "yes"⟩
  ∧ (⟨"human_asked", some "J2",
      some [("signature", Json.str (make_signature "user" "q" "text" []))]⟩ : Event) ∈
      ([⟨"human_asked", some "J2",
         some [("signature", Json.str (make_signature "user" "q" "text" []))]⟩,
        ⟨"human_asked", some "J1",
         some [("signature", Json.str (make_signature "user" "q" "text" []))]⟩,
        ⟨"human_response", some "J1", some [("answer", Json.str "yes")]⟩] : List Event)
  ∧ (∀ e ∈ ([⟨"human_asked", some "J2",
         some [("signature", Json.str (make_signature "user" "q" "text" []))]⟩,
        ⟨"human_asked", some "J1",
         some [("signature", Json.str (make_signature "user" "q" "text" []))]⟩,
        ⟨"human_response", some "J1", some [("answer", Json.str "yes")]⟩] : List Event),
      respDataFor "J2" e = none)
  ∧ (HumanQueryTool_run ⟨"p1", "t1", none, none, none⟩ none
      (Except.ok
        [⟨"human_asked", some "J2",
          some [("signature", Json.str (make_signature "user" "q" "text" []))]⟩,
         ⟨"human_asked", some "J1",
          some [("signature", Json.str (make_signature "user" "q" "text" []))]⟩,
         ⟨"human_response", some "J1", some [("answer", Json.str "yes")]⟩])
      "u0" "user" "q" "text" none).result ≠ RunResult.poll "J2" := by
  refine ⟨rfl, List.Mem.head _, ?_, ?_⟩
  · intro e he
    simp only [List.mem_cons, List.not_mem_nil, or_false] at he
    rcases he with rfl | rfl | rfl <;> rfl
  · intro h
    rw [show (HumanQueryTool_run ⟨"p1", "t1", none, none, none⟩ none
        (Except.ok
          [⟨"human_asked", some "J2",
            some [("signature", Json.str (make_signature "user" "q" "text" []))]⟩,
           ⟨"human_asked", some "J1",
            some [("signature", Json.str (make_signature "user" "q" "text" []))]⟩,
           ⟨"human_response", some "J1", some [("answer", Json.str "yes")]⟩])
        "u0" "user" "q" "text" none).result = RunResult.immediate "yes" from rfl] at h
    exact RunResult.noConfusion h
